import Mathlib

/-!
# Verification of `gf.sim.SpatialEntity` (games-framework)

Shallow embedding of `src/gf/sim/spatialentity.js`: the replicated
spatial-entity state (position, rotation, scale, boundingRadius with
per-field dirty ordinals) and the lazily recomputed
transform / bounding-sphere cache of the spatial entity.  Numeric values are modelled as
rationals; JavaScript objects become Lean structures and each mutating
method becomes a function from the old value to the new one.
-/

namespace GF

/-- A 3-component vector (`goog.vec.Vec3`). `createFloat32` yields zeros. -/
structure Vec3 where
  x : ℚ
  y : ℚ
  z : ℚ
deriving DecidableEq, Repr

/-- A 4-component quaternion (`goog.vec.Quaternion`), stored as x,y,z,w.
`createFloat32` yields all zeros. -/
structure Quat where
  x : ℚ
  y : ℚ
  z : ℚ
  w : ℚ
deriving DecidableEq, Repr

/-- A 4-component vector (`goog.vec.Vec4`), used as an XYZR bounding sphere. -/
structure Vec4 where
  x : ℚ
  y : ℚ
  z : ℚ
  r : ℚ
deriving DecidableEq, Repr

/-- A 4x4 matrix in `goog.vec.Mat4` column-major layout: field `eN`
is array element `N`, so the entry at row `r`, column `c` is `e(c*4+r)`. -/
structure Mat4 where
  e0 : ℚ
  e1 : ℚ
  e2 : ℚ
  e3 : ℚ
  e4 : ℚ
  e5 : ℚ
  e6 : ℚ
  e7 : ℚ
  e8 : ℚ
  e9 : ℚ
  e10 : ℚ
  e11 : ℚ
  e12 : ℚ
  e13 : ℚ
  e14 : ℚ
  e15 : ℚ
deriving DecidableEq, Repr

namespace Mat4

/-- Embeds `goog.vec.Mat4.multMat(a, b, result)`: `result = a · b` (column-major). -/
def mul (a b : Mat4) : Mat4 where
  e0 := a.e0 * b.e0 + a.e4 * b.e1 + a.e8 * b.e2 + a.e12 * b.e3
  e1 := a.e1 * b.e0 + a.e5 * b.e1 + a.e9 * b.e2 + a.e13 * b.e3
  e2 := a.e2 * b.e0 + a.e6 * b.e1 + a.e10 * b.e2 + a.e14 * b.e3
  e3 := a.e3 * b.e0 + a.e7 * b.e1 + a.e11 * b.e2 + a.e15 * b.e3
  e4 := a.e0 * b.e4 + a.e4 * b.e5 + a.e8 * b.e6 + a.e12 * b.e7
  e5 := a.e1 * b.e4 + a.e5 * b.e5 + a.e9 * b.e6 + a.e13 * b.e7
  e6 := a.e2 * b.e4 + a.e6 * b.e5 + a.e10 * b.e6 + a.e14 * b.e7
  e7 := a.e3 * b.e4 + a.e7 * b.e5 + a.e11 * b.e6 + a.e15 * b.e7
  e8 := a.e0 * b.e8 + a.e4 * b.e9 + a.e8 * b.e10 + a.e12 * b.e11
  e9 := a.e1 * b.e8 + a.e5 * b.e9 + a.e9 * b.e10 + a.e13 * b.e11
  e10 := a.e2 * b.e8 + a.e6 * b.e9 + a.e10 * b.e10 + a.e14 * b.e11
  e11 := a.e3 * b.e8 + a.e7 * b.e9 + a.e11 * b.e10 + a.e15 * b.e11
  e12 := a.e0 * b.e12 + a.e4 * b.e13 + a.e8 * b.e14 + a.e12 * b.e15
  e13 := a.e1 * b.e12 + a.e5 * b.e13 + a.e9 * b.e14 + a.e13 * b.e15
  e14 := a.e2 * b.e12 + a.e6 * b.e13 + a.e10 * b.e14 + a.e14 * b.e15
  e15 := a.e3 * b.e12 + a.e7 * b.e13 + a.e11 * b.e14 + a.e15 * b.e15

/-- The identity matrix. -/
def identity : Mat4 where
  e0 := 1
  e1 := 0
  e2 := 0
  e3 := 0
  e4 := 0
  e5 := 1
  e6 := 0
  e7 := 0
  e8 := 0
  e9 := 0
  e10 := 1
  e11 := 0
  e12 := 0
  e13 := 0
  e14 := 0
  e15 := 1

/-- Translation matrix `Translate(tx, ty, tz)` (column-major: the
translation sits in elements 12..14). -/
def translation (tx ty tz : ℚ) : Mat4 :=
  { identity with e12 := tx, e13 := ty, e14 := tz }

/-- Scale matrix `Scale(sx, sy, sz)` (diagonal). -/
def scaling (sx sy sz : ℚ) : Mat4 :=
  { identity with e0 := sx, e5 := sy, e10 := sz }

/-- Applies the matrix to a point with homogeneous coordinate `w = 1`,
returning the transformed x,y,z. -/
def transformPoint (m : Mat4) (v : Vec3) : Vec3 where
  x := m.e0 * v.x + m.e4 * v.y + m.e8 * v.z + m.e12
  y := m.e1 * v.x + m.e5 * v.y + m.e9 * v.z + m.e13
  z := m.e2 * v.x + m.e6 * v.y + m.e10 * v.z + m.e14

end Mat4

/-- Embeds `goog.vec.Quaternion.toRotationMatrix4(quat, matrix)`: the standard
rotation matrix of a quaternion, written column-major. -/
def quatToRotationMatrix4 (q : Quat) : Mat4 :=
  let x2 := 2 * q.x
  let y2 := 2 * q.y
  let z2 := 2 * q.z
  let wx := x2 * q.w
  let wy := y2 * q.w
  let wz := z2 * q.w
  let xx := x2 * q.x
  let xy := y2 * q.x
  let xz := z2 * q.x
  let yy := y2 * q.y
  let yz := z2 * q.y
  let zz := z2 * q.z
  { e0 := 1 - (yy + zz), e1 := xy + wz, e2 := xz - wy, e3 := 0
    e4 := xy - wz, e5 := 1 - (xx + zz), e6 := yz + wx, e7 := 0
    e8 := xz + wy, e9 := yz - wx, e10 := 1 - (xx + yy), e11 := 0
    e12 := 0, e13 := 0, e14 := 0, e15 := 1 }

/-- Modelled from the spec: `gf.vec.Mat4.multScalePost(m, sx, sy, sz, m)`
is not under `src/`; per §4.2 the scale is composed on the right
(scale applied first in object space), i.e. `m · Scale(sx, sy, sz)`. -/
def multScalePost (m : Mat4) (sx sy sz : ℚ) : Mat4 :=
  Mat4.mul m (Mat4.scaling sx sy sz)

/-- Modelled from the spec: `gf.vec.Mat4.multTranslationPre(tx, ty, tz, m, m)`
is not under `src/`; per §4.2 the translation is composed on the left
(applied last, in world space), i.e. `Translate(tx, ty, tz) · m`. -/
def multTranslationPre (tx ty tz : ℚ) (m : Mat4) : Mat4 :=
  Mat4.mul (Mat4.translation tx ty tz) m

/-- The per-entity replicated variable state `gf.sim.SpatialEntity.State`:
current field values, the ordinal resolved for each field at construction
(`variableTable.getOrdinal(tag)`), and the list of ordinals marked dirty
via the base-class `setVariableDirty` (in call order). -/
structure State where
  position : Vec3
  rotation : Quat
  scale : Vec3
  boundingRadius : ℚ
  positionOrdinal : ℕ
  rotationOrdinal : ℕ
  scaleOrdinal : ℕ
  boundingRadiusOrdinal : ℕ
  dirty : List ℕ
deriving DecidableEq, Repr

/-- Modelled from the spec: the base `gf.sim.EntityState` method
`setVariableDirty(ordinal)` is not under `src/`; per §6 it records the
ordinal in the dirty-bit storage of the entity. -/
def State.setVariableDirty (s : State) (ordinal : ℕ) : State :=
  { s with dirty := s.dirty ++ [ordinal] }

/-- The `gf.sim.SpatialEntity.State` constructor: `goog.vec.*.createFloat32`
zero-initializes every vector/quaternion and `boundingRadius_` is set to 0;
the ordinal of each field is looked up from the variable table. -/
def State.create (posOrd rotOrd scaleOrd brOrd : ℕ) : State where
  position := ⟨0, 0, 0⟩
  rotation := ⟨0, 0, 0, 0⟩
  scale := ⟨0, 0, 0⟩
  boundingRadius := 0
  positionOrdinal := posOrd
  rotationOrdinal := rotOrd
  scaleOrdinal := scaleOrd
  boundingRadiusOrdinal := brOrd
  dirty := []

/-- A `gf.sim.SpatialEntity` together with the state it owns.  The JS state
object holds a back-reference `this.entity` used by the setters to call
`invalidateTransform`; here setters act on the combined record.
`hasNotifiableParent` models the truthiness of
`this.getParent() && this.getParent().childTransformed`. -/
structure SpatialEntity where
  transformDirty : Bool
  boundingSphere : Vec4
  transform : Mat4
  state : State
  hasNotifiableParent : Bool
deriving DecidableEq, Repr

namespace SpatialEntity

/-- Embeds `gf.sim.SpatialEntity.prototype.invalidateTransform`. -/
def invalidateTransform (e : SpatialEntity) : SpatialEntity :=
  { e with transformDirty := true }

/-- Embeds `gf.sim.SpatialEntity.prototype.postNetworkUpdate` (override). -/
def postNetworkUpdate (e : SpatialEntity) : SpatialEntity :=
  { e with transformDirty := true }

/-- Embeds `setPosition(value)`: if `!goog.vec.Vec3.equals(this.position_, value)`,
copy the value, mark the position ordinal dirty and invalidate the
transform of the owning entity; otherwise do nothing. -/
def setPosition (e : SpatialEntity) (value : Vec3) : SpatialEntity :=
  if e.state.position = value then e
  else
    { e with
      state :=
        { (e.state.setVariableDirty e.state.positionOrdinal) with
          position := value }
      transformDirty := true }

/-- Embeds `setRotation(value)`: if `!goog.vec.Vec4.equals(this.rotation_, value)`,
copy the value, mark the rotation ordinal dirty and invalidate the
transform of the owning entity; otherwise do nothing. -/
def setRotation (e : SpatialEntity) (value : Quat) : SpatialEntity :=
  if e.state.rotation = value then e
  else
    { e with
      state :=
        { (e.state.setVariableDirty e.state.rotationOrdinal) with
          rotation := value }
      transformDirty := true }

/-- Embeds `setScale(value)`: if `!goog.vec.Vec3.equals(this.scale_, value)`,
copy the value, mark the scale ordinal dirty and invalidate the
transform of the owning entity; otherwise do nothing. -/
def setScale (e : SpatialEntity) (value : Vec3) : SpatialEntity :=
  if e.state.scale = value then e
  else
    { e with
      state :=
        { (e.state.setVariableDirty e.state.scaleOrdinal) with
          scale := value }
      transformDirty := true }

/-- Embeds `setBoundingRadius(value)` faithfully to the source text
`if (!this.boundingRadius_ != value)`: JavaScript first negates the
stored number (`!r` is `true` iff `r == 0`), then loosely compares the
boolean with `value` (coercing `true` to 1 and `false` to 0).  The update
branch therefore runs iff `value` differs from 1 when the stored radius
is 0, and from 0 when it is nonzero. -/
def setBoundingRadius (e : SpatialEntity) (value : ℚ) : SpatialEntity :=
  if (if e.state.boundingRadius = 0 then (1 : ℚ) else 0) ≠ value then
    { e with
      state :=
        { (e.state.setVariableDirty e.state.boundingRadiusOrdinal) with
          boundingRadius := value }
      transformDirty := true }
  else e

/-- The bounding sphere `updateTransform` computes from a state:
center = position, radius = boundingRadius · max of the scale axes. -/
def computedSphere (s : State) : Vec4 where
  x := s.position.x
  y := s.position.y
  z := s.position.z
  r := s.boundingRadius * max s.scale.x (max s.scale.y s.scale.z)

/-- The world matrix `updateTransform` computes from a state:
`Translate(position) · (RotationMatrix(rotation) · Scale(scale))`. -/
def computedTransform (s : State) : Mat4 :=
  multTranslationPre s.position.x s.position.y s.position.z
    (multScalePost (quatToRotationMatrix4 s.rotation) s.scale.x s.scale.y
      s.scale.z)

/-- Embeds `gf.sim.SpatialEntity.prototype.updateTransform`: early-returns when the
transform is not dirty; otherwise clears the flag, recomputes the bounding
sphere and transform from the state, and notifies a parent exposing
`childTransformed`.  The returned Bool reports whether that notification
was issued. -/
def updateTransform (e : SpatialEntity) : SpatialEntity × Bool :=
  if !e.transformDirty then (e, false)
  else
    ({ e with
       transformDirty := false
       boundingSphere := computedSphere e.state
       transform := computedTransform e.state },
     e.hasNotifiableParent)

/-- Embeds `gf.sim.SpatialEntity.prototype.getBoundingSphere(result)`: updates the
transform if dirty, then copies the cached sphere into `result` (returned
here as the second component). -/
def getBoundingSphere (e : SpatialEntity) : SpatialEntity × Vec4 :=
  let e' := if e.transformDirty then (updateTransform e).1 else e
  (e', e'.boundingSphere)

end SpatialEntity

/-- Per-node data of the entity hierarchy as seen by the ancestor
walk of `getTransform`: whether the node `instanceof gf.sim.SpatialEntity` and its
cached `transform_`. -/
structure NodeData where
  isSpatial : Bool
  transform : Mat4
deriving DecidableEq

/-- A node of the entity hierarchy: its own data together with its
ancestor chain, nearest parent first (so `getParent()` is the list
head).  Two nodes are equal when their data and whole ancestor chains
coincide, the stand-in for JavaScript reference equality. -/
structure EntityNode where
  data : NodeData
  ancestors : List NodeData
deriving DecidableEq

/-- Returns `getParent()` of the node; `none` when the ancestor chain is empty. -/
def EntityNode.parent : EntityNode → Option EntityNode
  | ⟨_, []⟩ => none
  | ⟨_, a :: rest⟩ => some ⟨a, rest⟩

/-- Returns the cached `transform_` of the node. -/
def EntityNode.transform (n : EntityNode) : Mat4 :=
  n.data.transform

/-- Whether the node `instanceof gf.sim.SpatialEntity`. -/
def EntityNode.isSpatial (n : EntityNode) : Bool :=
  n.data.isSpatial

/-- One iteration body of the `getTransform` walk: if the current ancestor
is a spatial entity, left-multiply its cached transform into the
accumulator (`goog.vec.Mat4.multMat(current.transform_, result, result)`). -/
def walkBody (current : Option EntityNode) (result : Mat4) : Mat4 :=
  match current with
  | some c => if c.isSpatial then Mat4.mul c.transform result else result
  | none => result

/-- The ancestor walk of `gf.sim.SpatialEntity.prototype.getTransform`,
embedded faithfully to the source: the loop advances with
`current = this.getParent()` (line 175), i.e. it re-reads the ORIGINAL
entity parent `thisParent` at every step instead of the parent of
`current`.  `fuel` bounds the number of iterations; `none` means the
loop had not terminated within `fuel` iterations. -/
def getTransformWalk (thisParent untilParent : Option EntityNode) :
    ℕ → Option EntityNode → Mat4 → Option Mat4
  | 0, current, result =>
      if current = untilParent then some result else none
  | fuel + 1, current, result =>
      if current = untilParent then some result
      else
        getTransformWalk thisParent untilParent fuel thisParent
          (walkBody current result)

/-- Modelled from the spec: the intended ancestor walk (spec sections 4.2
and 9), identical to `getTransformWalk` except that it advances with the
own parent of the current ancestor at every step. -/
def getTransformWalkSpec (untilParent : Option EntityNode) :
    ℕ → Option EntityNode → Mat4 → Option Mat4
  | 0, current, result =>
      if current = untilParent then some result else none
  | fuel + 1, current, result =>
      if current = untilParent then some result
      else
        getTransformWalkSpec untilParent fuel
          (current.bind EntityNode.parent) (walkBody current result)

/-- A replicated variable descriptor appended by `declareVariables`:
`gf.sim.Variable.Vec3` and `gf.sim.Variable.Float` take (tag, flags,
getter, setter); only `gf.sim.Variable.Quaternion` takes the extra
`normalized` argument.  Getters/setters are identified by the field they
access. -/
inductive FieldRef where
  | position
  | rotation
  | scale
  | boundingRadius
deriving DecidableEq, Repr

/-- Modelled from the spec (§3, §6): the variable flags named by the code;
`gf.sim.VariableFlag` is not under `src/`, so the flags are a set of the
two names used. -/
structure VariableFlags where
  updatedFrequently : Bool
  interpolated : Bool
deriving DecidableEq, Repr

/-- A variable descriptor as pushed by `declareVariables`. -/
inductive VariableDecl where
  | vec3 (tag : ℕ) (flags : VariableFlags) (accessor : FieldRef)
  | quaternion (tag : ℕ) (flags : VariableFlags) (accessor : FieldRef)
      (normalized : Bool)
  | float (tag : ℕ) (flags : VariableFlags) (accessor : FieldRef)
deriving DecidableEq, Repr

/-- The process-wide unique tags of `gf.sim.SpatialEntity.State.tags_`. -/
structure Tags where
  position : ℕ
  rotation : ℕ
  scale : ℕ
  boundingRadius : ℕ
deriving DecidableEq, Repr

/-- Modelled from the spec: the base `gf.sim.EntityState.declareVariables`
is not under `src/`; per §4.1 it appends the own descriptors of the base class
(`baseDecls`, unspecified here) to the list before any subclass field. -/
def EntityState.declareVariables (baseDecls variableList : List VariableDecl) :
    List VariableDecl :=
  variableList ++ baseDecls

/-- The flag set `UPDATED_FREQUENTLY | INTERPOLATED` that every descriptor in
this file carries. -/
def frequentInterpolated : VariableFlags :=
  { updatedFrequently := true, interpolated := true }

/-- Embeds `gf.sim.SpatialEntity.State.declareVariables(variableList)`: first
delegates to `gf.sim.EntityState.declareVariables`, then pushes the
position, rotation, scale and boundingRadius descriptors in that order;
only the rotation descriptor passes the extra `true` (normalized
quaternion) argument. -/
def State.declareVariables (tags : Tags)
    (baseDecls variableList : List VariableDecl) : List VariableDecl :=
  EntityState.declareVariables baseDecls variableList ++
    [VariableDecl.vec3 tags.position frequentInterpolated FieldRef.position,
     VariableDecl.quaternion tags.rotation frequentInterpolated
       FieldRef.rotation true,
     VariableDecl.vec3 tags.scale frequentInterpolated FieldRef.scale,
     VariableDecl.float tags.boundingRadius frequentInterpolated
       FieldRef.boundingRadius]

/-- The joint cache invariant of spec section 3: when the entity is Clean
(`transformDirty = false`), both caches agree exactly with the values
`updateTransform` would derive from the current state. -/
def cacheConsistent (e : SpatialEntity) : Prop :=
  e.transformDirty = false →
    e.boundingSphere = SpatialEntity.computedSphere e.state ∧
    e.transform = SpatialEntity.computedTransform e.state

/-- An entity whose transform is dirty satisfies the cache invariant
vacuously. -/
theorem cacheConsistent_of_dirty {e : SpatialEntity}
    (h : e.transformDirty = true) : cacheConsistent e := by
  intro hf
  rw [h] at hf
  exact absurd hf (by simp)

/-- Running `updateTransform` preserves the cache invariant: the clean
branch changes nothing and the dirty branch rebuilds both caches from the
very state it stores. -/
theorem updateTransform_cacheConsistent (e : SpatialEntity)
    (h : cacheConsistent e) : cacheConsistent (e.updateTransform).1 := by
  unfold SpatialEntity.updateTransform
  split
  · exact h
  · exact fun _ => ⟨rfl, rfl⟩

/-- A clean entity with a given bounding radius, zero state values
otherwise, resolved ordinals 0..3 and empty caches. -/
def cleanAtRadius (r : ℚ) : SpatialEntity where
  transformDirty := false
  boundingSphere := ⟨0, 0, 0, 0⟩
  transform := Mat4.identity
  state := { State.create 0 1 2 3 with boundingRadius := r }
  hasNotifiableParent := false

/-- A freshly constructed entity: dirty transform and default state. -/
def dirtyZeroEntity : SpatialEntity where
  transformDirty := true
  boundingSphere := ⟨0, 0, 0, 0⟩
  transform := Mat4.identity
  state := State.create 0 1 2 3
  hasNotifiableParent := false

/-- C1: the claim that every setter passed the currently stored value is a
complete no-op fails for `setBoundingRadius`: on a clean state storing
boundingRadius 5, `setBoundingRadius(5)` evaluates `!5 != 5` as
`0 != 5`, takes the update branch, marks ordinal 3 dirty and invalidates
the transform — while the position, rotation and scale setters are
genuine no-ops on their stored values. -/
theorem C1_equal_value_set_not_noop_for_boundingRadius :
    (cleanAtRadius 5).setBoundingRadius 5 ≠ cleanAtRadius 5 ∧
    ((cleanAtRadius 5).setBoundingRadius 5).state.dirty = [3] ∧
    ((cleanAtRadius 5).setBoundingRadius 5).transformDirty = true ∧
    (cleanAtRadius 5).setPosition (cleanAtRadius 5).state.position =
      cleanAtRadius 5 ∧
    (cleanAtRadius 5).setRotation (cleanAtRadius 5).state.rotation =
      cleanAtRadius 5 ∧
    (cleanAtRadius 5).setScale (cleanAtRadius 5).state.scale =
      cleanAtRadius 5 := by
  refine ⟨?_, ?_, ?_, ?_, ?_, ?_⟩ <;>
    simp [cleanAtRadius, State.create, SpatialEntity.setBoundingRadius,
      SpatialEntity.setPosition, SpatialEntity.setRotation,
      SpatialEntity.setScale, State.setVariableDirty, SpatialEntity.mk.injEq,
      State.mk.injEq]

/-- C2: the claim that every setter passed a different value stores it,
marks the ordinal dirty and invalidates the transform fails for
`setBoundingRadius`: on a state storing boundingRadius 0 the call
`setBoundingRadius(1)` evaluates `!0 != 1` as `1 != 1` and does nothing,
and on a state storing 5 the call `setBoundingRadius(0)` does nothing —
while `setPosition` with a different value behaves as claimed. -/
theorem C2_different_value_set_dropped_for_boundingRadius :
    (cleanAtRadius 0).state.boundingRadius ≠ 1 ∧
    (cleanAtRadius 0).setBoundingRadius 1 = cleanAtRadius 0 ∧
    (cleanAtRadius 5).state.boundingRadius ≠ 0 ∧
    (cleanAtRadius 5).setBoundingRadius 0 = cleanAtRadius 5 ∧
    ((cleanAtRadius 0).setPosition ⟨1, 0, 0⟩).state.position = ⟨1, 0, 0⟩ ∧
    ((cleanAtRadius 0).setPosition ⟨1, 0, 0⟩).state.dirty = [0] ∧
    ((cleanAtRadius 0).setPosition ⟨1, 0, 0⟩).transformDirty = true := by
  refine ⟨?_, ?_, ?_, ?_, ?_, ?_, ?_⟩ <;>
    simp [cleanAtRadius, State.create, SpatialEntity.setBoundingRadius,
      SpatialEntity.setPosition, State.setVariableDirty, Vec3.mk.injEq]

/-- C8 counterexample: the freshly constructed state (ordinals 0..3) does
NOT hold scale = (1,1,1); `goog.vec.Vec3.createFloat32()` zero-fills. -/
theorem C8_default_scale_not_one :
    (State.create 0 1 2 3).scale ≠ ⟨1, 1, 1⟩ := by
  simp [State.create, Vec3.mk.injEq]

/-- C8 (amended): a newly constructed replicated variable state is
zero-initialized throughout — scale is (0,0,0) (not (1,1,1)), position is
(0,0,0), rotation is (0,0,0,0), boundingRadius is 0, and no ordinal is
dirty. -/
theorem C8_default_state_zero_initialized (p r s b : ℕ) :
    (State.create p r s b).scale = ⟨0, 0, 0⟩ ∧
    (State.create p r s b).position = ⟨0, 0, 0⟩ ∧
    (State.create p r s b).rotation = ⟨0, 0, 0, 0⟩ ∧
    (State.create p r s b).boundingRadius = 0 ∧
    (State.create p r s b).dirty = [] :=
  ⟨rfl, rfl, rfl, rfl, rfl⟩

/-- C10: at the public interface, `setBoundingRadius` takes its update
branch iff the new value differs from 1 when the stored radius is 0, and
from 0 when the stored radius is nonzero.  In the two residual cases the
call changes nothing; in every other case — including a call passing the
currently stored value — it overwrites the field, appends exactly the
boundingRadius ordinal to the dirty list, and invalidates the transform. -/
theorem C10_setBoundingRadius_loose_negation_branch (e : SpatialEntity)
    (value : ℚ) :
    ((e.state.boundingRadius = 0 ∧ value = 1) ∨
        (e.state.boundingRadius ≠ 0 ∧ value = 0) →
      e.setBoundingRadius value = e) ∧
    ((e.state.boundingRadius = 0 → value ≠ 1) →
      (e.state.boundingRadius ≠ 0 → value ≠ 0) →
      (e.setBoundingRadius value).state.boundingRadius = value ∧
      (e.setBoundingRadius value).state.dirty =
        e.state.dirty ++ [e.state.boundingRadiusOrdinal] ∧
      (e.setBoundingRadius value).transformDirty = true) := by
  constructor
  · rintro (⟨h0, h1⟩ | ⟨h0, h1⟩) <;>
      simp [SpatialEntity.setBoundingRadius, h0, h1]
  · intro h1 h2
    have hcond : (if e.state.boundingRadius = 0 then (1 : ℚ) else 0) ≠
        value := by
      by_cases h0 : e.state.boundingRadius = 0
      · simpa [h0] using fun hv => h1 h0 hv.symm
      · simpa [h0] using fun hv => h2 h0 hv.symm
    simp [SpatialEntity.setBoundingRadius, hcond, State.setVariableDirty]

/-- C10 witness: with stored radius 5 and the same value 5 passed, the
update branch runs: the field is rewritten, ordinal 3 marked dirty, and
the transform invalidated. -/
theorem C10_setBoundingRadius_loose_negation_branch_witness :
    ((cleanAtRadius 5).setBoundingRadius 5).state.boundingRadius = 5 ∧
    ((cleanAtRadius 5).setBoundingRadius 5).state.dirty =
      (cleanAtRadius 5).state.dirty ++
        [(cleanAtRadius 5).state.boundingRadiusOrdinal] ∧
    ((cleanAtRadius 5).setBoundingRadius 5).transformDirty = true :=
  (C10_setBoundingRadius_loose_negation_branch (cleanAtRadius 5) 5).2
    (fun h0 => absurd h0 (by norm_num [cleanAtRadius, State.create]))
    (fun _ => by norm_num)

/-- C3: every operation of the state and the entity preserves the cache
invariant (`transformDirty = false` implies both caches equal the values
derived from the current state), and no operation that changes a
transform-relevant state value leaves `transformDirty` false: each setter
either leaves the state untouched or sets the dirty flag synchronously,
and the cache readers never change the state. -/
theorem C3_cache_invariant_preserved (e : SpatialEntity) (v w : Vec3)
    (q : Quat) (r : ℚ) (h : cacheConsistent e) :
    cacheConsistent (e.setPosition v) ∧
    cacheConsistent (e.setRotation q) ∧
    cacheConsistent (e.setScale w) ∧
    cacheConsistent (e.setBoundingRadius r) ∧
    cacheConsistent (e.updateTransform).1 ∧
    cacheConsistent e.invalidateTransform ∧
    cacheConsistent e.postNetworkUpdate ∧
    cacheConsistent (e.getBoundingSphere).1 ∧
    ((e.setPosition v).state ≠ e.state →
      (e.setPosition v).transformDirty = true) ∧
    ((e.setRotation q).state ≠ e.state →
      (e.setRotation q).transformDirty = true) ∧
    ((e.setScale w).state ≠ e.state →
      (e.setScale w).transformDirty = true) ∧
    ((e.setBoundingRadius r).state ≠ e.state →
      (e.setBoundingRadius r).transformDirty = true) ∧
    (e.updateTransform).1.state = e.state ∧
    (e.getBoundingSphere).1.state = e.state := by
  refine ⟨?_, ?_, ?_, ?_, updateTransform_cacheConsistent e h, ?_, ?_, ?_,
    ?_, ?_, ?_, ?_, ?_, ?_⟩
  · unfold SpatialEntity.setPosition
    split
    · exact h
    · exact cacheConsistent_of_dirty rfl
  · unfold SpatialEntity.setRotation
    split
    · exact h
    · exact cacheConsistent_of_dirty rfl
  · unfold SpatialEntity.setScale
    split
    · exact h
    · exact cacheConsistent_of_dirty rfl
  · unfold SpatialEntity.setBoundingRadius
    split <;> split
    · exact cacheConsistent_of_dirty rfl
    · exact h
    · exact cacheConsistent_of_dirty rfl
    · exact h
  · exact cacheConsistent_of_dirty rfl
  · exact cacheConsistent_of_dirty rfl
  · unfold SpatialEntity.getBoundingSphere
    dsimp only
    split
    · exact updateTransform_cacheConsistent e h
    · exact h
  · intro hne
    by_cases hc : e.state.position = v
    · simp [SpatialEntity.setPosition, hc] at hne
    · simp [SpatialEntity.setPosition, hc]
  · intro hne
    by_cases hc : e.state.rotation = q
    · simp [SpatialEntity.setRotation, hc] at hne
    · simp [SpatialEntity.setRotation, hc]
  · intro hne
    by_cases hc : e.state.scale = w
    · simp [SpatialEntity.setScale, hc] at hne
    · simp [SpatialEntity.setScale, hc]
  · intro hne
    by_cases hc : (if e.state.boundingRadius = 0 then (1 : ℚ) else 0) ≠ r
    · simp [SpatialEntity.setBoundingRadius, hc]
    · simp [SpatialEntity.setBoundingRadius, hc] at hne
  · unfold SpatialEntity.updateTransform
    split
    · rfl
    · rfl
  · unfold SpatialEntity.getBoundingSphere SpatialEntity.updateTransform
    dsimp only
    split
    · split
      · rfl
      · rfl
    · rfl

/-- C3 witness: the invariant is preserved when a fresh (dirty) entity has
its position set. -/
theorem C3_cache_invariant_preserved_witness :
    cacheConsistent (dirtyZeroEntity.setPosition ⟨1, 2, 3⟩) :=
  (C3_cache_invariant_preserved dirtyZeroEntity ⟨1, 2, 3⟩ ⟨1, 1, 1⟩
    ⟨0, 0, 0, 1⟩ 2 (cacheConsistent_of_dirty rfl)).1

/-- A dirty entity with nontrivial position, scale and bounding radius,
used to instantiate the cache theorems. -/
def dirtySample : SpatialEntity where
  transformDirty := true
  boundingSphere := ⟨9, 9, 9, 9⟩
  transform := Mat4.identity
  state :=
    { State.create 0 1 2 3 with
      position := ⟨1, 2, 3⟩
      scale := ⟨2, 5, 4⟩
      boundingRadius := 3 }
  hasNotifiableParent := false

/-- C5: after `updateTransform` on a dirty entity the cached sphere has
center = position and radius = boundingRadius times the maximum scale
axis, and `getBoundingSphere` then returns the updated entity unchanged
together with a copy of exactly that cached sphere. -/
theorem C5_bounding_sphere_from_state (e : SpatialEntity)
    (h : e.transformDirty = true) :
    (e.updateTransform).1.boundingSphere =
      ⟨e.state.position.x, e.state.position.y, e.state.position.z,
        e.state.boundingRadius *
          max e.state.scale.x (max e.state.scale.y e.state.scale.z)⟩ ∧
    (e.updateTransform).1.getBoundingSphere =
      ((e.updateTransform).1, (e.updateTransform).1.boundingSphere) := by
  constructor
  · simp [SpatialEntity.updateTransform, h, SpatialEntity.computedSphere]
  · have h2 : (e.updateTransform).1.transformDirty = false := by
      simp [SpatialEntity.updateTransform, h]
    simp [SpatialEntity.getBoundingSphere, h2]

/-- C5 witness: the dirty sample entity, position (1,2,3), scale (2,5,4)
and bounding radius 3, gets the claimed cached sphere. -/
theorem C5_bounding_sphere_from_state_witness :
    (dirtySample.updateTransform).1.boundingSphere =
      ⟨dirtySample.state.position.x, dirtySample.state.position.y,
        dirtySample.state.position.z,
        dirtySample.state.boundingRadius *
          max dirtySample.state.scale.x
            (max dirtySample.state.scale.y dirtySample.state.scale.z)⟩ :=
  (C5_bounding_sphere_from_state dirtySample rfl).1

/-- C6: after `updateTransform` on a dirty entity the cached world matrix
is `Translate(position) · (RotationMatrix(rotation) · Scale(scale))` —
scale first, then rotation, then translation — and concretely for
scale (2,1,1), identity rotation and position (5,0,0) it maps the local
origin to (5,0,0) and the local unit-X point to (7,0,0). -/
theorem C6_world_matrix_composition (e : SpatialEntity)
    (h : e.transformDirty = true) :
    (e.updateTransform).1.transform =
      Mat4.mul
        (Mat4.translation e.state.position.x e.state.position.y
          e.state.position.z)
        (Mat4.mul (quatToRotationMatrix4 e.state.rotation)
          (Mat4.scaling e.state.scale.x e.state.scale.y e.state.scale.z)) ∧
    (e.state.scale = ⟨2, 1, 1⟩ → e.state.rotation = ⟨0, 0, 0, 1⟩ →
      e.state.position = ⟨5, 0, 0⟩ →
      Mat4.transformPoint (e.updateTransform).1.transform ⟨0, 0, 0⟩ =
        ⟨5, 0, 0⟩ ∧
      Mat4.transformPoint (e.updateTransform).1.transform ⟨1, 0, 0⟩ =
        ⟨7, 0, 0⟩) := by
  have ht : (e.updateTransform).1.transform =
      SpatialEntity.computedTransform e.state := by
    simp [SpatialEntity.updateTransform, h]
  constructor
  · rw [ht]
    rfl
  · intro hs hr hp
    rw [ht]
    unfold SpatialEntity.computedTransform
    rw [hs, hr, hp]
    constructor <;>
      · simp only [multTranslationPre, multScalePost, quatToRotationMatrix4,
          Mat4.mul, Mat4.translation, Mat4.scaling, Mat4.identity,
          Mat4.transformPoint, Vec3.mk.injEq]
        norm_num

/-- A dirty entity with scale (2,1,1), identity rotation and position
(5,0,0), the concrete input named by C6. -/
def dirtyC6 : SpatialEntity where
  transformDirty := true
  boundingSphere := ⟨0, 0, 0, 0⟩
  transform := Mat4.identity
  state :=
    { State.create 0 1 2 3 with
      position := ⟨5, 0, 0⟩
      rotation := ⟨0, 0, 0, 1⟩
      scale := ⟨2, 1, 1⟩ }
  hasNotifiableParent := false

/-- C6 witness: on the concrete entity the cached matrix maps the local
origin to (5,0,0) and the local unit-X point to (7,0,0). -/
theorem C6_world_matrix_composition_witness :
    Mat4.transformPoint (dirtyC6.updateTransform).1.transform ⟨0, 0, 0⟩ =
      ⟨5, 0, 0⟩ ∧
    Mat4.transformPoint (dirtyC6.updateTransform).1.transform ⟨1, 0, 0⟩ =
      ⟨7, 0, 0⟩ :=
  (C6_world_matrix_composition dirtyC6 rfl).2 rfl rfl rfl

/-- C7: calling `updateTransform` twice in a row is a no-op the second
time — the second call returns the entity unchanged and performs no
parent notification — and on a Clean entity even the first call changes
nothing and notifies nobody. -/
theorem C7_updateTransform_clean_noop (e : SpatialEntity) :
    (e.updateTransform).1.updateTransform = ((e.updateTransform).1, false) ∧
    (e.transformDirty = false → e.updateTransform = (e, false)) := by
  constructor
  · cases hd : e.transformDirty <;>
      simp [SpatialEntity.updateTransform, hd]
  · intro hf
    simp [SpatialEntity.updateTransform, hf]

/-- C7 witness: on a clean entity `updateTransform` returns the entity
unchanged with no notification. -/
theorem C7_updateTransform_clean_noop_witness :
    (cleanAtRadius 0).updateTransform = (cleanAtRadius 0, false) :=
  (C7_updateTransform_clean_noop (cleanAtRadius 0)).2 rfl

/-- C4: the ancestor walk as coded never advances.  For a child whose
spatial parent `A` (transform `ta`) has no parent of its own, with the
relative-parent argument omitted (`untilParent = none`), the embedded
source loop — which re-reads `this.getParent()` every iteration — fails
to terminate for every iteration bound, whereas the walk the spec
requires (advancing via the own parent of each ancestor) terminates in
two steps and returns `ta · tb`, the parent transform left-multiplied
into the local transform of the child. -/
theorem C4_ancestor_walk_never_advances (ta tb : Mat4) :
    (∀ fuel : ℕ,
      getTransformWalk (some ⟨⟨true, ta⟩, []⟩) none fuel
        (some ⟨⟨true, ta⟩, []⟩) tb = none) ∧
    getTransformWalkSpec none 2 (some ⟨⟨true, ta⟩, []⟩) tb =
      some (Mat4.mul ta tb) := by
  constructor
  · intro fuel
    induction fuel generalizing tb with
    | zero => simp [getTransformWalk]
    | succ n ih =>
        rw [getTransformWalk]
        simp only [reduceCtorEq, if_false]
        exact ih _
  · rfl

/-- C9: `declareVariables` first delegates to the base entity-state
declaration — the output begins with exactly what the base declaration
produced — and then appends exactly four descriptors in the fixed order
position, rotation, scale, boundingRadius, all flagged
UPDATED_FREQUENTLY and INTERPOLATED; only the rotation descriptor is a
`Variable.Quaternion` carrying the extra normalized-quaternion flag
(set to true), a constructor argument the Vec3 and Float descriptors of
the other three fields do not possess. -/
theorem C9_declareVariables_base_then_four (tags : Tags)
    (baseDecls variableList : List VariableDecl) :
    (State.declareVariables tags baseDecls variableList).take
        (EntityState.declareVariables baseDecls variableList).length =
      EntityState.declareVariables baseDecls variableList ∧
    (State.declareVariables tags baseDecls variableList).drop
        (EntityState.declareVariables baseDecls variableList).length =
      [VariableDecl.vec3 tags.position frequentInterpolated FieldRef.position,
       VariableDecl.quaternion tags.rotation frequentInterpolated
         FieldRef.rotation true,
       VariableDecl.vec3 tags.scale frequentInterpolated FieldRef.scale,
       VariableDecl.float tags.boundingRadius frequentInterpolated
         FieldRef.boundingRadius] := by
  unfold State.declareVariables
  exact ⟨List.take_left _ _, List.drop_left _ _⟩

end GF
